import Mathlib

/-!
Shallow embedding of the work-stealing job queue of `cpp_refresh`.

The repository contains two draft implementations of `JobQueue<T>`:

* `src/unnamed/part_000` — the "cursor-only" draft: two monotonically
  increasing `size_t` cursors `m_write` / `m_read`, fullness decided by
  `tail - head >= m_capacity`, emptiness by `tail == head`, and storage
  indexed by `cursor % m_capacity`.  Embedded below as `CursorDraft`.

* `src/unnamed/part_005` — the "count-based" draft: an occupancy counter
  `m_count` plus cursors that are wrapped to `0` inside
  `try_claim_entry` whenever `position + 1 == m_capacity`, and storage
  indexed by the claimed cursor value directly.  Embedded below as
  `CountDraft`.

Machine integers (`size_t`) are modelled as `Nat` reduced modulo `2^64`
exactly where the C++ performs wrapping arithmetic (cursor increments and
the `tail - head` subtraction of the cursor-only draft).  The backing
`UniqueBuffer<T>` (`src/inc/unique_buffer.h`) is a fixed-length buffer
whose `operator[]` throws `std::out_of_range` for an index `>= size`;
it is modelled as a `List α` with guarded access, an out-of-range access
(or the undefined `x % 0` reached by a moved-from queue) producing the
explicit `fault` outcome.

Sequential (single-thread) runs of the C++ execute every
`compare_exchange` loop exactly once, successfully; the sequential
semantics below therefore has no retry loops.  The count-based draft's
racy count-update loop, whose behaviour under interference several
claims are about, is additionally given a faithful micro-step
interleaving semantics (`CountDraft.pushStep`) in which every atomic
access of `JobQueue::push` is one step.
-/

/-- Result of `bool push(T item)`: `ok` is `return true` with the queue's
post-state, `full` is `return false`, `fault` is an out-of-range storage
access or mod-by-zero (undefined behaviour / `std::out_of_range`). -/
inductive PushResult (σ : Type) where
  | ok (s : σ)
  | full
  | fault
  deriving DecidableEq

/-- Result of `bool pop(T& out)` / `bool steal(...)`: `ok` carries the
value moved into `out` and the post-state, `empty` is `return false`,
`fault` is an out-of-range storage access or mod-by-zero. -/
inductive PopResult (σ : Type) (α : Type) where
  | ok (a : α) (s : σ)
  | empty
  | fault
  deriving DecidableEq

/-- The modulus of `size_t` arithmetic (64-bit). -/
def size_t_mod : Nat := 2 ^ 64

/-- Wrapping `size_t` subtraction `a - b`. -/
def usub (a b : Nat) : Nat := (a + size_t_mod - b) % size_t_mod

/-- Wrapping `size_t` increment `a + 1`. -/
def uinc (a : Nat) : Nat := (a + 1) % size_t_mod

/-- Operations a client can invoke on one queue (the argument-free `steal`
targets the queue itself as victim, as in `q.steal(q, out)`). -/
inductive Op (α : Type) where
  | push (x : α)
  | pop
  | steal
  deriving DecidableEq

/-- Observable outcome of one operation: the returned boolean, and for a
successful pop/steal the value delivered through `out`. -/
inductive OpOut (α : Type) where
  | pushOk
  | pushFail
  | popOk (v : α)
  | popFail
  deriving DecidableEq

namespace CursorDraft

/-- The cursor-only draft `JobQueue<T>` of `src/unnamed/part_000`:
fields `m_capacity`, `m_entries` (the `UniqueBuffer<T>`), and the two
atomic cursors `m_read` / `m_write`. -/
structure JobQueue (α : Type) where
  m_capacity : Nat
  m_entries : List α
  m_read : Nat
  m_write : Nat
  deriving DecidableEq

/-- Constructor `JobQueue(const size_t capacity)`: a buffer of `capacity`
value-initialized slots (`init` models the value-initialized `T`), both
cursors zero. -/
def ofCapacity (capacity : Nat) (init : α) : JobQueue α :=
  { m_capacity := capacity
  , m_entries := List.replicate capacity init
  , m_read := 0
  , m_write := 0 }

/-- State of the moved-from source after the move constructor or move
assignment of `part_000`: the `UniqueBuffer` is moved away (null, size
0), `m_capacity` is set to 0, and the cursors are left at their old
values (the source's `m_read` / `m_write` are never reset). -/
def movedFrom (q : JobQueue α) : JobQueue α :=
  { m_capacity := 0
  , m_entries := []
  , m_read := q.m_read
  , m_write := q.m_write }

/-- Sequential `bool push(T item)` of `part_000` (lines 72–91): load
`tail`/`head`; if `tail - head >= m_capacity` return `false`; store the
item at `m_entries[tail % m_capacity]`; the CAS on `m_write` succeeds
(no interference) advancing the write cursor by one. -/
def push (q : JobQueue α) (item : α) : PushResult (JobQueue α) :=
  let tail := q.m_write
  let head := q.m_read
  if q.m_capacity ≤ usub tail head then .full
  else if q.m_capacity = 0 then .fault
  else if tail % q.m_capacity < q.m_entries.length then
    .ok { q with m_entries := q.m_entries.set (tail % q.m_capacity) item
               , m_write := uinc tail }
  else .fault

/-- Sequential `bool pop(T& out)` of `part_000` (lines 93–112): load
`head`/`tail`; if `tail == head` return `false`; the CAS on `m_read`
succeeds, then `out = std::move(m_entries[head % m_capacity])`.  A
capacity of 0 makes `head % m_capacity` undefined behaviour, and an
index past the buffer size throws: both are `fault`. -/
def pop (q : JobQueue α) : PopResult (JobQueue α) α :=
  let head := q.m_read
  let tail := q.m_write
  if tail = head then .empty
  else if q.m_capacity = 0 then .fault
  else
    match q.m_entries.get? (head % q.m_capacity) with
    | some v => .ok v { q with m_read := uinc head }
    | none => .fault

/-- Sequential `bool steal(JobQueue<T>& victim, T& out)` of `part_000`
(lines 114–132): the same statements as `pop`, applied to `victim`'s
`m_read` / `m_write` / `m_entries` / `m_capacity`. -/
def steal (victim : JobQueue α) : PopResult (JobQueue α) α :=
  let head := victim.m_read
  let tail := victim.m_write
  if tail = head then .empty
  else if victim.m_capacity = 0 then .fault
  else
    match victim.m_entries.get? (head % victim.m_capacity) with
    | some v => .ok v { victim with m_read := uinc head }
    | none => .fault

/-- The member call `caller.steal(victim, out)` over a family of queues
indexed by `Nat`: only the entry of `victim` is rebound; the body of
`steal` never names a field of the caller. -/
def stealW (w : Nat → JobQueue α) (_caller victim : Nat) :
    Option α × (Nat → JobQueue α) :=
  match steal (w victim) with
  | .ok a v' => (some a, Function.update w victim v')
  | .empty => (none, w)
  | .fault => (none, w)

/-- One operation on one queue, `none` on a fault. -/
def applyOp (q : JobQueue α) (op : Op α) : Option (OpOut α × JobQueue α) :=
  match op with
  | .push x =>
    match push q x with
    | .ok q' => some (.pushOk, q')
    | .full => some (.pushFail, q)
    | .fault => none
  | .pop =>
    match pop q with
    | .ok v q' => some (.popOk v, q')
    | .empty => some (.popFail, q)
    | .fault => none
  | .steal =>
    match steal q with
    | .ok v q' => some (.popOk v, q')
    | .empty => some (.popFail, q)
    | .fault => none

/-- Sequential run of a list of operations, recording each outcome. -/
def runOps (q : JobQueue α) : List (Op α) → Option (List (OpOut α) × JobQueue α)
  | [] => some ([], q)
  | op :: ops =>
    match applyOp q op with
    | none => none
    | some (o, q') =>
      match runOps q' ops with
      | none => none
      | some (os, qf) => some (o :: os, qf)

end CursorDraft

namespace CountDraft

/-- The count-based draft `JobQueue<T>` of `src/unnamed/part_005`:
fields `m_entries` (the `UniqueBuffer<T>`), `m_capacity`, the occupancy
counter `m_count`, and cursors `m_read` / `m_write`. -/
structure JobQueue (α : Type) where
  m_capacity : Nat
  m_entries : List α
  m_count : Nat
  m_read : Nat
  m_write : Nat
  deriving DecidableEq

/-- Constructor `JobQueue(const size_t capacity)` of `part_005`. -/
def ofCapacity (capacity : Nat) (init : α) : JobQueue α :=
  { m_capacity := capacity
  , m_entries := List.replicate capacity init
  , m_count := 0
  , m_read := 0
  , m_write := 0 }

/-- Sequential `try_claim_entry` (lines 52–74): read the cursor, compute
`next_position = current + 1`, wrapped to `0` when it equals
`m_capacity`; the CAS succeeds (no interference).  Returns the claimed
position and the new cursor value. -/
def try_claim_entry (cap pos : Nat) : Nat × Nat :=
  let next_position := if pos + 1 = cap then 0 else pos + 1
  (pos, next_position)

/-- Sequential `bool push(T item)` of `part_005` (lines 78–102): reject
when `m_count == m_capacity`; claim a write slot; store the item at
`m_entries[write_index]` (out of range throws: `fault`); the count CAS
succeeds (no interference), incrementing `m_count`. -/
def push (q : JobQueue α) (item : α) : PushResult (JobQueue α) :=
  if q.m_count = q.m_capacity then .full
  else
    let p := try_claim_entry q.m_capacity q.m_write
    if p.1 < q.m_entries.length then
      .ok { q with m_write := p.2
                 , m_entries := q.m_entries.set p.1 item
                 , m_count := q.m_count + 1 }
    else .fault

/-- Sequential `bool pop(T& item)` of `part_005` (lines 104–127): reject
when `m_count == 0`; claim a read slot; move `m_entries[read_index]`
out; the count CAS succeeds, decrementing `m_count`. -/
def pop (q : JobQueue α) : PopResult (JobQueue α) α :=
  if q.m_count = 0 then .empty
  else
    let p := try_claim_entry q.m_capacity q.m_read
    match q.m_entries.get? p.1 with
    | some v => .ok v { q with m_read := p.2, m_count := q.m_count - 1 }
    | none => .fault

/-- Sequential `bool steal(JobQueue<T>& queue, T& item)` of `part_005`
(lines 129–152): the statements of `pop` applied to the victim
argument's `m_count` / `m_read` / `m_write` / `m_entries`, except that
`try_claim_entry` is an unqualified member call on `this` (the caller),
so its wrap test `next_position == m_capacity` (lines 59, 67) reads the
caller's capacity while advancing the victim's read cursor. -/
def steal (caller victim : JobQueue α) : PopResult (JobQueue α) α :=
  if victim.m_count = 0 then .empty
  else
    let p := try_claim_entry caller.m_capacity victim.m_read
    match victim.m_entries.get? p.1 with
    | some v => .ok v { victim with m_read := p.2, m_count := victim.m_count - 1 }
    | none => .fault

/-- The member call `caller.steal(victim, out)` over a family of queues
indexed by `Nat`: only the entry of `victim` is rebound; the body of
`steal` reads the caller's capacity but writes no field of the caller. -/
def stealW (w : Nat → JobQueue α) (caller victim : Nat) :
    Option α × (Nat → JobQueue α) :=
  match steal (w caller) (w victim) with
  | .ok a v' => (some a, Function.update w victim v')
  | .empty => (none, w)
  | .fault => (none, w)

/-- One operation on one queue, `none` on a fault. -/
def applyOp (q : JobQueue α) (op : Op α) : Option (OpOut α × JobQueue α) :=
  match op with
  | .push x =>
    match push q x with
    | .ok q' => some (.pushOk, q')
    | .full => some (.pushFail, q)
    | .fault => none
  | .pop =>
    match pop q with
    | .ok v q' => some (.popOk v, q')
    | .empty => some (.popFail, q)
    | .fault => none
  | .steal =>
    match steal q q with
    | .ok v q' => some (.popOk v, q')
    | .empty => some (.popFail, q)
    | .fault => none

/-- Sequential run of a list of operations, recording each outcome. -/
def runOps (q : JobQueue α) : List (Op α) → Option (List (OpOut α) × JobQueue α)
  | [] => some ([], q)
  | op :: ops =>
    match applyOp q op with
    | none => none
    | some (o, q') =>
      match runOps q' ops with
      | none => none
      | some (os, qf) => some (o :: os, qf)

/-- Program counter of one thread executing `JobQueue::push` of
`part_005`, one label per atomic access:
`start` = the initial `m_count.load()` plus the full check (lines 80–85);
`loadW` = the cursor load and `next_position` computation inside
`try_claim_entry` (lines 56–61, 64–69);
`casW` = the `compare_exchange_strong` on the cursor (line 63);
`writeSlot` = the store `m_entries[write_index] = ...` (line 89);
`casCount` = the `compare_exchange_strong` on `m_count` (line 90);
`retryLoad` = the reload of `m_count` plus the full check inside the
retry loop (lines 91–96);
`fault` = an out-of-range store; `done r` = `return r`. -/
inductive PushPc where
  | start
  | loadW
  | casW
  | writeSlot
  | casCount
  | retryLoad
  | fault
  | done (r : Bool)
  deriving DecidableEq

/-- Thread-local state of one `push(item)` call: the locals
`current_count` (`cur`), `next_count` (`nxt`), the expected and desired
cursor values of the pending cursor CAS (`wExp`, `wDes`), the claimed
`write_index` (`idx`), and whether `try_claim_entry` has returned
(`claimed`). -/
structure PushTh (α : Type) where
  pc : PushPc
  item : α
  cur : Nat
  nxt : Nat
  wExp : Nat
  wDes : Nat
  idx : Nat
  claimed : Bool
  deriving DecidableEq

/-- A fresh thread about to call `push item`. -/
def pushThread (item : α) : PushTh α :=
  { pc := .start, item := item, cur := 0, nxt := 0
  , wExp := 0, wDes := 0, idx := 0, claimed := false }

/-- One atomic step of `JobQueue::push` of `part_005` against the shared
queue state.  The shared `JobQueue` plays the role of the memory the
atomics live in; each step performs exactly one access to it. -/
def pushStep (s : JobQueue α) (t : PushTh α) : JobQueue α × PushTh α :=
  match t.pc with
  | .start =>
    let c := s.m_count
    if c = s.m_capacity then (s, { t with pc := .done false })
    else (s, { t with cur := c, nxt := c + 1, pc := .loadW })
  | .loadW =>
    let w := s.m_write
    let n := if w + 1 = s.m_capacity then 0 else w + 1
    (s, { t with wExp := w, wDes := n, pc := .casW })
  | .casW =>
    if s.m_write = t.wExp then
      ({ s with m_write := t.wDes }
      , { t with idx := t.wExp, claimed := true, pc := .writeSlot })
    else (s, { t with pc := .loadW })
  | .writeSlot =>
    if t.idx < s.m_entries.length then
      ({ s with m_entries := s.m_entries.set t.idx t.item }
      , { t with pc := .casCount })
    else (s, { t with pc := .fault })
  | .casCount =>
    if s.m_count = t.cur then
      ({ s with m_count := t.nxt }, { t with pc := .done true })
    else (s, { t with pc := .retryLoad })
  | .retryLoad =>
    let c := s.m_count
    if c = s.m_capacity then (s, { t with pc := .done false })
    else (s, { t with cur := c, nxt := c + 1, pc := .casCount })
  | .fault => (s, t)
  | .done _ => (s, t)

/-- Two threads, A and B, concurrently pushing into one shared queue. -/
structure Sys (α : Type) where
  shared : JobQueue α
  thA : PushTh α
  thB : PushTh α
  deriving DecidableEq

/-- Run one step of thread A (`true`) or thread B (`false`). -/
def sysStep (s : Sys α) (who : Bool) : Sys α :=
  if who then
    let r := pushStep s.shared s.thA
    { s with shared := r.1, thA := r.2 }
  else
    let r := pushStep s.shared s.thB
    { s with shared := r.1, thB := r.2 }

/-- Run a schedule (a sequentially consistent interleaving of the two
threads' atomic accesses). -/
def sysRun (s : Sys α) (sched : List Bool) : Sys α :=
  sched.foldl sysStep s

/-- Two threads racing `push 10` (A) and `push 20` (B) into a fresh
capacity-1 queue. -/
def raceInit : Sys Nat :=
  { shared := ofCapacity 1 0
  , thA := pushThread 10
  , thB := pushThread 20 }

/-- The interleaving: A loads the count, claims the write slot; B then
runs its entire push to completion (claiming the same slot 0, since the
capacity-1 cursor wraps back to 0); A then stores its item and enters
the count-CAS retry, where it observes `m_count == m_capacity` and
returns `false`. -/
def raceSched : List Bool :=
  [true, true, true, false, false, false, false, false, true, true, true]

/-- Final system state of the race. -/
def raceFinal : Sys Nat := sysRun raceInit raceSched

end CountDraft

/-! Theorems settling the claims. -/

/-- C1: the count-based draft's `push` can return `false` after it has
claimed a write slot and stored its item.  In the two-thread race
`raceFinal` (capacity 1, A pushing 10, B pushing 20), thread A's
`try_claim_entry` succeeded (`claimed = true`) and its store ran, yet
the count-CAS retry observed `m_count == m_capacity` and A returned
`false` — contradicting the spec's rule that once a slot is claimed the
push must not fail. -/
theorem countDraft_push_fails_after_claim :
    CountDraft.raceFinal.thA.claimed = true ∧
    CountDraft.raceFinal.thA.pc = .done false ∧
    CountDraft.raceFinal.shared.m_count = CountDraft.raceFinal.shared.m_capacity := by
  decide

/-- C2: a `push` of the count-based draft that returns `false` is not
effect-free.  In the race `raceFinal`, thread A's push returns `false`
yet its item 10 is the value left in slot 0 of the shared queue, and a
subsequent `pop` delivers that 10 — the failed operation transferred
its element into the queue instead of transferring none. -/
theorem countDraft_failed_push_mutates_queue :
    CountDraft.raceFinal.thA.pc = .done false ∧
    CountDraft.raceFinal.thA.item = 10 ∧
    CountDraft.raceFinal.shared.m_entries = [10] ∧
    CountDraft.pop CountDraft.raceFinal.shared = .ok 10 ⟨1, [10], 0, 0, 0⟩ := by
  decide

/-- C3: the count-based draft loses work under an interleaving.  In the
race `raceFinal`, thread B's `push 20` returns `true`, yet draining the
final queue yields only the single value 10 (thread A's item, whose
push returned `false`): the successfully pushed 20 is never observed by
any `pop`/`steal`, and 10 is observed although its push failed. -/
theorem countDraft_pushed_value_lost :
    CountDraft.raceFinal.thB.pc = .done true ∧
    CountDraft.raceFinal.thB.item = 20 ∧
    CountDraft.pop CountDraft.raceFinal.shared = .ok 10 ⟨1, [10], 0, 0, 0⟩ ∧
    CountDraft.pop (⟨1, [10], 0, 0, 0⟩ : CountDraft.JobQueue Nat) = .empty ∧
    (10 : Nat) ≠ 20 := by
  decide

/-- C4 counterexample: in the count-based draft `caller.steal(victim)`
is not `victim.pop()` when the capacities differ, because `steal`'s
`try_claim_entry` wraps at the caller's capacity.  On the victim state
reached from the fresh capacity-2 queue by `push 8; push 9; pop`
(`m_count = 1`, `m_read = 1`, `m_write = 0`), `pop` wraps the read
cursor to 0 but a capacity-5 caller's `steal` sets it to 2 — same
boolean and same delivered value, different victim post-state. -/
theorem countDraft_steal_pop_differ_cex :
    CountDraft.pop (⟨2, [8, 9], 1, 1, 0⟩ : CountDraft.JobQueue Nat) =
      .ok 9 ⟨2, [8, 9], 0, 0, 0⟩ ∧
    CountDraft.steal (CountDraft.ofCapacity 5 0)
        (⟨2, [8, 9], 1, 1, 0⟩ : CountDraft.JobQueue Nat) =
      .ok 9 ⟨2, [8, 9], 0, 2, 0⟩ ∧
    ¬ ((⟨2, [8, 9], 0, 0, 0⟩ : CountDraft.JobQueue Nat) = ⟨2, [8, 9], 0, 2, 0⟩) := by
  decide

/-- C4 amended: in the cursor-only draft `steal` runs the identical
algorithm to `pop` for every victim state; in the count-based draft it
does so whenever the caller's capacity equals the victim's — in
particular self-steal `q.steal(q, out)` is always equivalent to
`q.pop(out)` — while with differing capacities the victim's read cursor
is wrapped at the caller's capacity instead of the victim's. -/
theorem steal_matches_pop_same_capacity :
    (∀ (α : Type) (victim : CursorDraft.JobQueue α),
        CursorDraft.steal victim = CursorDraft.pop victim) ∧
    (∀ (α : Type) (caller victim : CountDraft.JobQueue α),
        caller.m_capacity = victim.m_capacity →
        CountDraft.steal caller victim = CountDraft.pop victim) := by
  constructor
  · intro α victim
    rfl
  · intro α caller victim h
    simp only [CountDraft.steal, CountDraft.pop, CountDraft.try_claim_entry, h]

/-- Witness for `steal_matches_pop_same_capacity`: self-steal on a
concrete count-based queue holding one element behaves as its pop. -/
theorem steal_matches_pop_same_capacity_witness :
    (⟨2, [8, 9], 1, 1, 0⟩ : CountDraft.JobQueue Nat).m_capacity =
      (⟨2, [8, 9], 1, 1, 0⟩ : CountDraft.JobQueue Nat).m_capacity ∧
    CountDraft.steal (⟨2, [8, 9], 1, 1, 0⟩ : CountDraft.JobQueue Nat)
        ⟨2, [8, 9], 1, 1, 0⟩ =
      CountDraft.pop (⟨2, [8, 9], 1, 1, 0⟩ : CountDraft.JobQueue Nat) :=
  ⟨rfl, steal_matches_pop_same_capacity.2 Nat ⟨2, [8, 9], 1, 1, 0⟩
      ⟨2, [8, 9], 1, 1, 0⟩ rfl⟩

/-- C5 counterexample: in the count-based draft the write cursor is
wrapped modulo the capacity in memory.  From the fresh capacity-2 queue,
the first push leaves `m_write = 1`; the second push succeeds but sets
`m_write` to `0`, not to `1 + 1`: the cursor is neither monotone nor
advanced by exactly one. -/
theorem countDraft_cursor_wraps_cex :
    CountDraft.push (CountDraft.ofCapacity 2 0) 5 = .ok ⟨2, [5, 0], 1, 0, 1⟩ ∧
    CountDraft.push (⟨2, [5, 0], 1, 0, 1⟩ : CountDraft.JobQueue Nat) 6 =
      .ok ⟨2, [5, 6], 2, 0, 0⟩ ∧
    ¬ ((0 : Nat) = 1 + 1) := by
  decide

/-- C5 amended: the cursor discipline of the claim holds in the
cursor-only draft — a successful `push` advances `m_write` by exactly
one (wrapping only at the `size_t` width), leaves `m_read` alone, and
stores at index `m_write % m_capacity`; a successful `pop`/`steal`
advances `m_read` by exactly one and leaves `m_write` and the storage
alone.  In the count-based draft, by contrast, a successful `push`
stores the cursor already reduced: the new `m_write` is `0` whenever
`m_write + 1` equals the capacity. -/
theorem cursor_discipline :
    (∀ (q : CursorDraft.JobQueue Nat) (x : Nat) (q' : CursorDraft.JobQueue Nat),
        CursorDraft.push q x = .ok q' →
          q'.m_write = uinc q.m_write ∧ q'.m_read = q.m_read ∧
          q'.m_entries = q.m_entries.set (q.m_write % q.m_capacity) x) ∧
    (∀ (q : CursorDraft.JobQueue Nat) (v : Nat) (q' : CursorDraft.JobQueue Nat),
        CursorDraft.pop q = .ok v q' →
          q'.m_read = uinc q.m_read ∧ q'.m_write = q.m_write ∧
          q'.m_entries = q.m_entries) ∧
    (∀ (q : CursorDraft.JobQueue Nat) (v : Nat) (q' : CursorDraft.JobQueue Nat),
        CursorDraft.steal q = .ok v q' →
          q'.m_read = uinc q.m_read ∧ q'.m_write = q.m_write ∧
          q'.m_entries = q.m_entries) ∧
    (∀ (q : CountDraft.JobQueue Nat) (x : Nat) (q' : CountDraft.JobQueue Nat),
        CountDraft.push q x = .ok q' →
          q'.m_write = if q.m_write + 1 = q.m_capacity then 0 else q.m_write + 1) := by
  refine ⟨?_, ?_, ?_, ?_⟩
  · intro q x q' h
    simp only [CursorDraft.push] at h
    split at h
    · exact PushResult.noConfusion h
    · split at h
      · exact PushResult.noConfusion h
      · split at h
        · cases h
          exact ⟨rfl, rfl, rfl⟩
        · exact PushResult.noConfusion h
  · intro q v q' h
    simp only [CursorDraft.pop] at h
    split at h
    · exact PopResult.noConfusion h
    · split at h
      · exact PopResult.noConfusion h
      · split at h
        · cases h
          exact ⟨rfl, rfl, rfl⟩
        · exact PopResult.noConfusion h
  · intro q v q' h
    simp only [CursorDraft.steal] at h
    split at h
    · exact PopResult.noConfusion h
    · split at h
      · exact PopResult.noConfusion h
      · split at h
        · cases h
          exact ⟨rfl, rfl, rfl⟩
        · exact PopResult.noConfusion h
  · intro q x q' h
    simp only [CountDraft.push, CountDraft.try_claim_entry] at h
    split at h
    · exact PushResult.noConfusion h
    · split at h
      · cases h
        rfl
      · exact PushResult.noConfusion h

/-- Witness for `cursor_discipline`: the first conjunct applied to a
concrete successful push on the fresh capacity-2 cursor-only queue. -/
theorem cursor_discipline_witness :
    CursorDraft.push (CursorDraft.ofCapacity 2 0) 7 = .ok ⟨2, [7, 0], 0, 1⟩ ∧
    (⟨2, [7, 0], 0, 1⟩ : CursorDraft.JobQueue Nat).m_write =
      uinc (CursorDraft.ofCapacity 2 0).m_write :=
  ⟨by decide,
   (cursor_discipline.1 (CursorDraft.ofCapacity 2 0) 7 ⟨2, [7, 0], 0, 1⟩ (by decide)).1⟩

/-- The outcome a failing operation reports: `pushFail` for `push`,
`popFail` for `pop`/`steal`. -/
def opFail : Op Nat → OpOut Nat
  | .push _ => .pushFail
  | .pop => .popFail
  | .steal => .popFail

/-- On a fresh zero-capacity cursor-only queue every single operation
fails and leaves the state untouched. -/
theorem cursorDraft_applyOp_zeroCap (op : Op Nat) :
    CursorDraft.applyOp (CursorDraft.ofCapacity 0 0) op =
      some (opFail op, CursorDraft.ofCapacity 0 0) := by
  cases op <;> rfl

/-- On a fresh zero-capacity count-based queue every single operation
fails and leaves the state untouched. -/
theorem countDraft_applyOp_zeroCap (op : Op Nat) :
    CountDraft.applyOp (CountDraft.ofCapacity 0 0) op =
      some (opFail op, CountDraft.ofCapacity 0 0) := by
  cases op <;> rfl

/-- C6: a queue constructed with capacity 0 is permanently empty and
full: in both drafts, for every sequence of operations, every `push`
returns `false` and every `pop`/`steal` returns `false`, and the queue
state never changes from the fresh state. -/
theorem zero_capacity_queue_rejects_everything :
    ∀ ops : List (Op Nat),
      CursorDraft.runOps (CursorDraft.ofCapacity 0 0) ops =
        some (ops.map opFail, CursorDraft.ofCapacity 0 0) ∧
      CountDraft.runOps (CountDraft.ofCapacity 0 0) ops =
        some (ops.map opFail, CountDraft.ofCapacity 0 0) := by
  intro ops
  constructor
  · induction ops with
    | nil => rfl
    | cons op ops ih =>
      simp [CursorDraft.runOps, cursorDraft_applyOp_zeroCap, ih]
  · induction ops with
    | nil => rfl
    | cons op ops ih =>
      simp [CountDraft.runOps, countDraft_applyOp_zeroCap, ih]

/-- C7: FIFO fidelity with wrap-around on a fresh capacity-2 queue, in
both drafts: `push 1; push 2; pop; push 3; pop; pop; pop` yields pops
1, 2, 3 and finally `false`, the third push wrapping into the drained
slot. -/
theorem fifo_wraparound_capacity_two :
    CursorDraft.runOps (CursorDraft.ofCapacity 2 0)
        [.push 1, .push 2, .pop, .push 3, .pop, .pop, .pop] =
      some ([.pushOk, .pushOk, .popOk 1, .pushOk, .popOk 2, .popOk 3, .popFail],
            ⟨2, [3, 2], 3, 3⟩) ∧
    CountDraft.runOps (CountDraft.ofCapacity 2 0)
        [.push 1, .push 2, .pop, .push 3, .pop, .pop, .pop] =
      some ([.pushOk, .pushOk, .popOk 1, .pushOk, .popOk 2, .popOk 3, .popFail],
            ⟨2, [3, 2], 0, 1, 1⟩) := by
  decide

/-- C8: full/empty boundary on a fresh capacity-4 queue, in both drafts:
`pop` on empty fails; pushes of 1, 2, 3, 4 succeed; a fifth push fails;
draining via four pops returns 1, 2, 3, 4 in push order. -/
theorem full_empty_boundary_capacity_four :
    CursorDraft.runOps (CursorDraft.ofCapacity 4 0)
        [.pop, .push 1, .push 2, .push 3, .push 4, .push 5,
         .pop, .pop, .pop, .pop] =
      some ([.popFail, .pushOk, .pushOk, .pushOk, .pushOk, .pushFail,
             .popOk 1, .popOk 2, .popOk 3, .popOk 4],
            ⟨4, [1, 2, 3, 4], 4, 4⟩) ∧
    CountDraft.runOps (CountDraft.ofCapacity 4 0)
        [.pop, .push 1, .push 2, .push 3, .push 4, .push 5,
         .pop, .pop, .pop, .pop] =
      some ([.popFail, .pushOk, .pushOk, .pushOk, .pushOk, .pushFail,
             .popOk 1, .popOk 2, .popOk 3, .popOk 4],
            ⟨4, [1, 2, 3, 4], 0, 0, 0⟩) := by
  decide

/-- C9: `caller.steal(victim, out)` mutates only the victim's queue: in
both drafts, for every family of queues, every caller and victim, and
every index other than the victim's, the queue at that index — the
caller's own queue included — is unchanged, whatever the call returned. -/
theorem steal_mutates_only_victim :
    (∀ (w : Nat → CursorDraft.JobQueue Nat) (caller victim j : Nat),
        j ≠ victim → (CursorDraft.stealW w caller victim).2 j = w j) ∧
    (∀ (w : Nat → CountDraft.JobQueue Nat) (caller victim j : Nat),
        j ≠ victim → (CountDraft.stealW w caller victim).2 j = w j) := by
  constructor
  · intro w caller victim j h
    simp only [CursorDraft.stealW]
    split
    · exact Function.update_noteq h _ _
    · rfl
    · rfl
  · intro w caller victim j h
    simp only [CountDraft.stealW]
    split
    · exact Function.update_noteq h _ _
    · rfl
    · rfl

/-- Witness for `steal_mutates_only_victim`: a concrete world of
cursor-only queues, caller 0 stealing from victim 1, queue 2 unchanged. -/
theorem steal_mutates_only_victim_witness :
    (2 : Nat) ≠ 1 ∧
    (CursorDraft.stealW (fun _ => CursorDraft.ofCapacity 1 (0 : Nat)) 0 1).2 2 =
      (fun _ => CursorDraft.ofCapacity 1 (0 : Nat)) 2 :=
  ⟨by decide,
   steal_mutates_only_victim.1 (fun _ => CursorDraft.ofCapacity 1 0) 0 1 2 (by decide)⟩

/-- C10: the moved-from source of the cursor-only draft is not left
fully inert.  Moving from a capacity-2 queue holding one pending item
(cursors `m_read = 0`, `m_write = 1`) leaves the source with capacity 0,
an empty buffer, and its old cursors; `push` on it does return `false`,
but `pop` passes the `tail == head` emptiness test and then evaluates
`m_entries[m_read % m_capacity]` with `m_capacity == 0` — a mod-by-zero
on an empty buffer (`fault`), not a `false` return. -/
theorem moved_from_queue_pop_faults :
    CursorDraft.push (CursorDraft.ofCapacity 2 0) 7 = .ok ⟨2, [7, 0], 0, 1⟩ ∧
    CursorDraft.movedFrom ⟨2, [7, 0], 0, 1⟩ = ⟨0, [], 0, 1⟩ ∧
    CursorDraft.push (⟨0, [], 0, 1⟩ : CursorDraft.JobQueue Nat) 9 = .full ∧
    CursorDraft.pop (⟨0, [], 0, 1⟩ : CursorDraft.JobQueue Nat) = .fault := by
  decide
